import Mathlib

/-!
Shallow embedding of the `server-starter-listener-rs` crate (src/lib.rs).

The crate exposes a single resolver `listeners()` that reads the
environment variable SERVER_STARTER_PORT, splits its value on `;` into
segments of the form `address=fd`, classifies each address token with two
regexes, and adopts each file descriptor as a TCP or Unix-domain listener.

Modelling decisions, each tied to the source:
- Reading the environment variable is modelled by an `Option String`
  parameter: `none` stands for `std::env::var` returning `Err` (variable
  unset, or not Unicode), `some v` for `Ok(v)`.
- Adopting a raw descriptor (`TcpListener::from_raw_fd` /
  `UnixListener::from_raw_fd`) has no observable effect at resolution
  time; a listener is modelled as its variant tag plus the adopted
  descriptor number, exactly the data the crate's own tests observe via
  `as_raw_fd`.
- Rust `str::split` with a one-character separator keeps empty pieces and
  yields one empty piece for the empty string; `splitChar` below mirrors
  that exactly.
- `fd.parse::<i32>()` accepts an optional sign followed by one or more
  ASCII digits, within the i32 range; `parseI32` mirrors that.
- The regex class `\d` is modelled as the ASCII digits 0-9; on every
  ASCII input this agrees with the regex crate's default digit class.
- `UnixListener::from_raw_fd` cannot fail, so `ServerStarterListener.uds`
  returns `Except.ok` unconditionally, exactly as the source wraps the
  adopted listener in `Ok(...)`. To reason about the error-wrapping
  branch of the resolver, the loop is additionally stated parametrically
  in the Unix-domain adoption function (`listenersWith`); the crate's
  resolver is the instance at `ServerStarterListener.uds`.
-/

/-- Stand-in for `std::io::Error` as produced by a failing descriptor
adoption; only its identity matters to the resolver, which wraps it
unchanged into `UnixListenerBindError`. -/
structure OsError where
  code : Nat
deriving DecidableEq, Repr

/-- Embedding of `enum ServerStarterListener { Tcp(TcpListener), Uds(UnixListener) }`:
a listener is its variant together with the raw descriptor it adopted
(the only datum observable through `as_raw_fd`). -/
inductive ServerStarterListener where
  | Tcp (fd : Int)
  | Uds (fd : Int)
deriving DecidableEq, Repr

/-- Embedding of `ServerStarterListener::tcp(fd)`: infallible adoption of
the descriptor as a TCP listener. -/
def ServerStarterListener.tcp (fd : Int) : ServerStarterListener :=
  ServerStarterListener.Tcp fd

/-- Embedding of `ServerStarterListener::uds(fd) -> std::io::Result<...>`:
the source body is `Ok(ServerStarterListener::Uds(unsafe { ... }))`, so the
result is always `ok`. -/
def ServerStarterListener.uds (fd : Int) : Except OsError ServerStarterListener :=
  Except.ok (ServerStarterListener.Uds fd)

/-- Embedding of `enum ListenerError`. -/
inductive ListenerError where
  | ServerStarterPortEnvNotFound
  | InvalidServerStarterPortSpec (spec : String)
  | UnixListenerBindError (e : OsError)
deriving DecidableEq, Repr

/-- Rust `str::split` with a one-character separator, on a character
list: empty pieces are kept and the empty input yields one empty piece. -/
def splitChar (sep : Char) : List Char → List (List Char)
  | [] => [[]]
  | c :: rest =>
    let r := splitChar sep rest
    if c = sep then [] :: r
    else
      match r with
      | hd :: tl => (c :: hd) :: tl
      | [] => [[c]]

/-- String-level wrapper of `splitChar`; models `spec.split(sep)` collected
into a vector, for the one-character separators ";" and "=" the source uses. -/
def splitStr (sep : Char) (s : String) : List String :=
  (splitChar sep s.data).map String.mk

/-- Value of a list of ASCII digits, most significant first. -/
def digitsToNat (ds : List Char) : Nat :=
  ds.foldl (fun acc c => acc * 10 + (c.toNat - 48)) 0

/-- Embedding of `fd.parse::<i32>()`: an optional `+` or `-` sign followed
by one or more ASCII digits, and the signed value must fit in i32. -/
def parseI32 (s : String) : Option Int :=
  let cs := s.data
  let signAndDigits : Int × List Char :=
    match cs with
    | '+' :: rest => (1, rest)
    | '-' :: rest => (-1, rest)
    | _ => (1, cs)
  let sign := signAndDigits.1
  let ds := signAndDigits.2
  if ds.isEmpty then none
  else if ds.all Char.isDigit then
    let v : Int := sign * (digitsToNat ds : Nat)
    if -(2 ^ 31) ≤ v ∧ v < 2 ^ 31 then some v else none
  else none

/-- Embedding of `HOST_PORT_REGEX`, the anchored regex `^[^:]+:\d+$`
together with `.find(left).is_some()`: a non-empty colon-free prefix, a
colon, then a non-empty run of digits reaching the end. -/
def hostPortMatch (s : String) : Bool :=
  match s.data.span (fun c => c != ':') with
  | (pre, ':' :: post) => (!pre.isEmpty) && (!post.isEmpty) && post.all Char.isDigit
  | _ => false

/-- Embedding of `PORT_REGEX`, the anchored regex `^\d+$` together with
`.find(left).is_some()`: a non-empty all-digit token. -/
def portMatch (s : String) : Bool :=
  (!s.data.isEmpty) && s.data.all Char.isDigit

/-- Body of one iteration of the `for spec in specs` loop in `listeners`,
parametric in the Unix-domain adoption function `udsFn` (the source calls
`ServerStarterListener::uds`): split on `=`, require exactly two parts,
parse the descriptor, classify the address token by `HOST_PORT_REGEX`
first and `PORT_REGEX` second, falling through to Unix-domain adoption. -/
def processSpecWith (udsFn : Int → Except OsError ServerStarterListener)
    (spec : String) : Except ListenerError ServerStarterListener :=
  match splitStr '=' spec with
  | [left, fdTok] =>
    match parseI32 fdTok with
    | none => Except.error (ListenerError.InvalidServerStarterPortSpec spec)
    | some fd =>
      if hostPortMatch left then Except.ok (ServerStarterListener.tcp fd)
      else if portMatch left then Except.ok (ServerStarterListener.tcp fd)
      else
        match udsFn fd with
        | Except.ok udsListener => Except.ok udsListener
        | Except.error e => Except.error (ListenerError.UnixListenerBindError e)
  | _ => Except.error (ListenerError.InvalidServerStarterPortSpec spec)

/-- The `for` loop of `listeners`: process the segments left to right,
pushing each produced listener; the first failing segment returns its
error immediately and no result vector is returned. -/
def resolveSpecsWith (udsFn : Int → Except OsError ServerStarterListener) :
    List String → Except ListenerError (List ServerStarterListener)
  | [] => Except.ok []
  | spec :: rest =>
    match processSpecWith udsFn spec with
    | Except.error e => Except.error e
    | Except.ok l =>
      match resolveSpecsWith udsFn rest with
      | Except.error e => Except.error e
      | Except.ok ls => Except.ok (l :: ls)

/-- Embedding of `pub fn listeners()`, parametric in the Unix-domain
adoption function: unset variable fails with `ServerStarterPortEnvNotFound`,
otherwise the value is split on `;` and the segments are resolved in order. -/
def listenersWith (udsFn : Int → Except OsError ServerStarterListener)
    (env : Option String) : Except ListenerError (List ServerStarterListener) :=
  match env with
  | none => Except.error ListenerError.ServerStarterPortEnvNotFound
  | some specs => resolveSpecsWith udsFn (splitStr ';' specs)

/-- Embedding of `pub fn listeners()` itself: the loop instantiated with
the crate's own Unix-domain adoption function. -/
def listeners (env : Option String) : Except ListenerError (List ServerStarterListener) :=
  listenersWith ServerStarterListener.uds env

deriving instance DecidableEq for Except

/-- Helper for stating that a resolver outcome is the Unix-domain bind
error, without an equality hypothesis. -/
def isUnixBindError : Except ListenerError (List ServerStarterListener) → Bool
  | Except.error (ListenerError.UnixListenerBindError _) => true
  | _ => false

/-- A hypothetical Unix-domain adoption function that reports the OS
error 7 on every descriptor; used to exercise the error-wrapping branch
of the loop, which the crate's own infallible `uds` never reaches. -/
def udsFailing : Int → Except OsError ServerStarterListener :=
  fun _ => Except.error ⟨7⟩

/-! Helper lemmas about the embedded resolver. -/

/-- Unfolding of `listeners` at a present environment value. -/
theorem listeners_some (s : String) :
    listeners (some s) = resolveSpecsWith ServerStarterListener.uds (splitStr ';' s) := rfl

/-- Resolving a single segment that processes successfully yields the
one-element listener vector. -/
theorem resolve_single_ok (udsFn : Int → Except OsError ServerStarterListener)
    (seg : String) (l : ServerStarterListener)
    (h : processSpecWith udsFn seg = Except.ok l) :
    resolveSpecsWith udsFn [seg] = Except.ok [l] := by
  simp only [resolveSpecsWith]
  rw [h]

/-- Resolving a single segment that fails yields that segment's error. -/
theorem resolve_single_err (udsFn : Int → Except OsError ServerStarterListener)
    (seg : String) (e : ListenerError)
    (h : processSpecWith udsFn seg = Except.error e) :
    resolveSpecsWith udsFn [seg] = Except.error e := by
  simp only [resolveSpecsWith]
  rw [h]

/-- When the variable's value is its own single segment, the resolver
returns exactly the one listener that segment produces. -/
theorem listeners_single_ok (seg : String) (l : ServerStarterListener)
    (hsemi : splitStr ';' seg = [seg])
    (h : processSpecWith ServerStarterListener.uds seg = Except.ok l) :
    listeners (some seg) = Except.ok [l] := by
  rw [listeners_some, hsemi]
  exact resolve_single_ok _ _ _ h

/-- When the variable's value is its own single segment, the resolver
returns exactly the error that segment produces. -/
theorem listeners_single_err (seg : String) (e : ListenerError)
    (hsemi : splitStr ';' seg = [seg])
    (h : processSpecWith ServerStarterListener.uds seg = Except.error e) :
    listeners (some seg) = Except.error e := by
  rw [listeners_some, hsemi]
  exact resolve_single_err _ _ _ h

/-- A segment that does not split on `=` into exactly two parts fails with
`InvalidServerStarterPortSpec` carrying the segment. -/
theorem processSpec_not_two (udsFn : Int → Except OsError ServerStarterListener)
    (spec : String) (h : (splitStr '=' spec).length ≠ 2) :
    processSpecWith udsFn spec =
      Except.error (ListenerError.InvalidServerStarterPortSpec spec) := by
  rcases hs : splitStr '=' spec with _ | ⟨a, _ | ⟨b, _ | ⟨c, tl⟩⟩⟩
  · simp only [processSpecWith, hs]
  · simp only [processSpecWith, hs]
  · exact absurd (by rw [hs] ; rfl) h
  · simp only [processSpecWith, hs]

/-- Reduction of one segment's processing once the `=`-split has exactly
two parts and the descriptor token parses. -/
theorem processSpec_fd (udsFn : Int → Except OsError ServerStarterListener)
    (spec left fdTok : String) (fd : Int)
    (hpair : splitStr '=' spec = [left, fdTok]) (hfd : parseI32 fdTok = some fd) :
    processSpecWith udsFn spec =
      (if hostPortMatch left then Except.ok (ServerStarterListener.Tcp fd)
       else if portMatch left then Except.ok (ServerStarterListener.Tcp fd)
       else
         match udsFn fd with
         | Except.ok udsListener => Except.ok udsListener
         | Except.error e => Except.error (ListenerError.UnixListenerBindError e)) := by
  simp only [processSpecWith, hpair, hfd, ServerStarterListener.tcp]

/-- A two-part segment whose descriptor token does not parse fails with
`InvalidServerStarterPortSpec`. -/
theorem processSpec_badfd (udsFn : Int → Except OsError ServerStarterListener)
    (spec left fdTok : String)
    (hpair : splitStr '=' spec = [left, fdTok]) (hfd : parseI32 fdTok = none) :
    processSpecWith udsFn spec =
      Except.error (ListenerError.InvalidServerStarterPortSpec spec) := by
  simp only [processSpecWith, hpair, hfd]

/-- A two-part segment whose address token matches either regex adopts the
descriptor as a TCP listener. -/
theorem processSpec_tcp (udsFn : Int → Except OsError ServerStarterListener)
    (spec left fdTok : String) (fd : Int)
    (hpair : splitStr '=' spec = [left, fdTok]) (hfd : parseI32 fdTok = some fd)
    (hmatch : (hostPortMatch left || portMatch left) = true) :
    processSpecWith udsFn spec = Except.ok (ServerStarterListener.Tcp fd) := by
  rw [processSpec_fd udsFn spec left fdTok fd hpair hfd]
  rcases Bool.or_eq_true_iff.mp hmatch with h | h
  · simp [h]
  · simp [h]

/-- A two-part segment whose address token matches neither regex goes
through the Unix-domain adoption function. -/
theorem processSpec_uds_branch (udsFn : Int → Except OsError ServerStarterListener)
    (spec left fdTok : String) (fd : Int)
    (hpair : splitStr '=' spec = [left, fdTok]) (hfd : parseI32 fdTok = some fd)
    (hhp : hostPortMatch left = false) (hpm : portMatch left = false) :
    processSpecWith udsFn spec =
      (match udsFn fd with
       | Except.ok udsListener => Except.ok udsListener
       | Except.error e => Except.error (ListenerError.UnixListenerBindError e)) := by
  rw [processSpec_fd udsFn spec left fdTok fd hpair hfd, hhp, hpm]
  simp

/-- With the crate's own adoption function, the Unix-domain branch always
succeeds with the adopted descriptor. -/
theorem processSpec_uds_ok (spec left fdTok : String) (fd : Int)
    (hpair : splitStr '=' spec = [left, fdTok]) (hfd : parseI32 fdTok = some fd)
    (hhp : hostPortMatch left = false) (hpm : portMatch left = false) :
    processSpecWith ServerStarterListener.uds spec =
      Except.ok (ServerStarterListener.Uds fd) := by
  rw [processSpec_uds_branch ServerStarterListener.uds spec left fdTok fd hpair hfd hhp hpm]
  rfl

/-- A two-part segment on which the adoption function fails with cause `e`
makes the segment fail with `UnixListenerBindError e`. -/
theorem processSpec_uds_err (udsFn : Int → Except OsError ServerStarterListener)
    (spec left fdTok : String) (fd : Int) (e : OsError)
    (hpair : splitStr '=' spec = [left, fdTok]) (hfd : parseI32 fdTok = some fd)
    (hhp : hostPortMatch left = false) (hpm : portMatch left = false)
    (hud : udsFn fd = Except.error e) :
    processSpecWith udsFn spec =
      Except.error (ListenerError.UnixListenerBindError e) := by
  rw [processSpec_uds_branch udsFn spec left fdTok fd hpair hfd hhp hpm, hud]

/-- If the processing of one segment reports `UnixListenerBindError e`,
the adoption function itself failed with cause `e` on some descriptor. -/
theorem processSpec_bindError (udsFn : Int → Except OsError ServerStarterListener)
    (spec : String) (e : OsError)
    (h : processSpecWith udsFn spec = Except.error (ListenerError.UnixListenerBindError e)) :
    ∃ fd, udsFn fd = Except.error e := by
  rcases hs : splitStr '=' spec with _ | ⟨a, _ | ⟨b, _ | ⟨c, tl⟩⟩⟩
  · rw [processSpec_not_two udsFn spec (by rw [hs] ; simp)] at h
    simp at h
  · rw [processSpec_not_two udsFn spec (by rw [hs] ; simp)] at h
    simp at h
  · cases hp : parseI32 b with
    | none =>
      rw [processSpec_badfd udsFn spec a b hs hp] at h
      simp at h
    | some fd =>
      rw [processSpec_fd udsFn spec a b fd hs hp] at h
      split_ifs at h with h1 h2
      cases hu : udsFn fd with
      | ok l => rw [hu] at h ; simp at h
      | error e2 =>
        rw [hu] at h
        simp only [Except.error.injEq, ListenerError.UnixListenerBindError.injEq] at h
        exact ⟨fd, by rw [hu, h]⟩
  · rw [processSpec_not_two udsFn spec (by rw [hs] ; simp)] at h
    simp at h

/-- If the loop over the segments reports `UnixListenerBindError e`, the
adoption function itself failed with cause `e` on some descriptor. -/
theorem resolve_bindError (udsFn : Int → Except OsError ServerStarterListener)
    (segs : List String) (e : OsError)
    (h : resolveSpecsWith udsFn segs = Except.error (ListenerError.UnixListenerBindError e)) :
    ∃ fd, udsFn fd = Except.error e := by
  induction segs with
  | nil => simp [resolveSpecsWith] at h
  | cons seg rest ih =>
    simp only [resolveSpecsWith] at h
    cases hp : processSpecWith udsFn seg with
    | error e2 =>
      rw [hp] at h
      simp only [Except.error.injEq] at h
      subst h
      exact processSpec_bindError udsFn seg e hp
    | ok l =>
      rw [hp] at h
      cases hr : resolveSpecsWith udsFn rest with
      | error e2 =>
        rw [hr] at h
        simp only [Except.error.injEq] at h
        subst h
        exact ih hr
      | ok ls => rw [hr] at h ; simp at h

/-- If the resolver reports `UnixListenerBindError e`, the adoption
function itself failed with cause `e` on some descriptor. -/
theorem listenersWith_bindError (udsFn : Int → Except OsError ServerStarterListener)
    (env : Option String) (e : OsError)
    (h : listenersWith udsFn env = Except.error (ListenerError.UnixListenerBindError e)) :
    ∃ fd, udsFn fd = Except.error e := by
  cases env with
  | none => simp [listenersWith] at h
  | some s => exact resolve_bindError udsFn (splitStr ';' s) e h

/-- If every segment processes successfully to the pointwise-related
listener, the loop returns exactly that listener list. -/
theorem resolve_forall2 (udsFn : Int → Except OsError ServerStarterListener) :
    ∀ (segs : List String) (ls : List ServerStarterListener),
      List.Forall₂ (fun seg l => processSpecWith udsFn seg = Except.ok l) segs ls →
      resolveSpecsWith udsFn segs = Except.ok ls
  | _, _, List.Forall₂.nil => rfl
  | seg :: segs, l :: ls, List.Forall₂.cons h1 h2 => by
    simp only [resolveSpecsWith]
    rw [show processSpecWith udsFn seg = Except.ok l from h1,
      resolve_forall2 udsFn segs ls h2]

/-- The loop aborts at the first failing segment with that segment's
error, whatever follows it. -/
theorem resolve_abort (udsFn : Int → Except OsError ServerStarterListener) :
    ∀ (pre : List String) (bad : String) (rest : List String) (e : ListenerError),
      (∀ seg ∈ pre, ∃ l, processSpecWith udsFn seg = Except.ok l) →
      processSpecWith udsFn bad = Except.error e →
      resolveSpecsWith udsFn (pre ++ bad :: rest) = Except.error e
  | [], bad, rest, e, _, hbad => by
    simp only [List.nil_append, resolveSpecsWith]
    rw [hbad]
  | seg :: pre, bad, rest, e, hpre, hbad => by
    obtain ⟨l, hl⟩ := hpre seg (by simp)
    have hrec := resolve_abort udsFn pre bad rest e (fun s hs => hpre s (by simp [hs])) hbad
    show resolveSpecsWith udsFn (seg :: (pre ++ bad :: rest)) = Except.error e
    simp only [resolveSpecsWith]
    rw [hl, hrec]


/-! Claim theorems. -/

/-- C1: for a well-formed spec (a single segment splitting on `=` into an
address token and a descriptor token that parses), resolution yields
exactly one listener adopting the given descriptor number: TCP when the
address token matches the host:port regex (tried first in
`processSpecWith`) or the bare-port regex (tried second), and Unix-domain
when it matches neither. -/
theorem claim1_classification (seg left fdTok : String) (fd : Int)
    (hsemi : splitStr ';' seg = [seg])
    (hpair : splitStr '=' seg = [left, fdTok])
    (hfd : parseI32 fdTok = some fd) :
    listeners (some seg) =
      Except.ok [if hostPortMatch left || portMatch left then
        ServerStarterListener.Tcp fd else ServerStarterListener.Uds fd] := by
  cases hhp : hostPortMatch left with
  | true =>
    rw [listeners_single_ok seg (ServerStarterListener.Tcp fd) hsemi
      (processSpec_tcp ServerStarterListener.uds seg left fdTok fd hpair hfd (by simp [hhp]))]
    simp [hhp]
  | false =>
    cases hpm : portMatch left with
    | true =>
      rw [listeners_single_ok seg (ServerStarterListener.Tcp fd) hsemi
        (processSpec_tcp ServerStarterListener.uds seg left fdTok fd hpair hfd (by simp [hpm]))]
      simp [hpm]
    | false =>
      rw [listeners_single_ok seg (ServerStarterListener.Uds fd) hsemi
        (processSpec_uds_ok seg left fdTok fd hpair hfd hhp hpm)]
      simp [hhp, hpm]

/-- Witness for C1 at the concrete spec `127.0.0.1:8080=3`. -/
theorem claim1_witness :
    listeners (some "127.0.0.1:8080=3") = Except.ok [ServerStarterListener.Tcp 3] := by
  have h := claim1_classification "127.0.0.1:8080=3" "127.0.0.1:8080" "3" 3
    (by decide) (by decide) (by decide)
  exact h.trans (by decide)

/-- C2 counterexample: the claim says a segment with an empty address
token must fail with `InvalidSpec`, but on `=2` the code splits into the
two parts `""` and `"2"`, passes the length check, and classifies the
empty address token as a Unix-domain path, returning a listener. -/
theorem claim2_counterexample :
    listeners (some "=2") = Except.ok [ServerStarterListener.Uds 2] := by decide

/-- C2 amended: a segment that does not split on `=` into exactly two
parts (empty parts allowed), or whose descriptor token is empty (the
empty string does not parse as an integer), fails with
`InvalidServerStarterPortSpec` carrying the raw segment text; the empty
address token, however, is classified as a Unix-domain path. -/
theorem claim2_amended (seg left : String)
    (hsemi : splitStr ';' seg = [seg])
    (hbad : (splitStr '=' seg).length ≠ 2 ∨ splitStr '=' seg = [left, ""]) :
    listeners (some seg) =
      Except.error (ListenerError.InvalidServerStarterPortSpec seg) := by
  rcases hbad with h | h
  · exact listeners_single_err seg _ hsemi (processSpec_not_two ServerStarterListener.uds seg h)
  · exact listeners_single_err seg _ hsemi
      (processSpec_badfd ServerStarterListener.uds seg left "" h rfl)

/-- Witness for the amended C2 at the concrete segment `80=` (empty
descriptor token). -/
theorem claim2_witness :
    listeners (some "80=") =
      Except.error (ListenerError.InvalidServerStarterPortSpec "80=") :=
  claim2_amended "80=" "80" (by decide) (Or.inr (by decide))

/-- C3 counterexample: the claim says a negative descriptor token such as
`80=-3` must be rejected with `InvalidSpec`, but `"-3".parse::<i32>()`
succeeds in the code, so resolution returns a TCP listener adopting the
descriptor number -3. -/
theorem claim3_counterexample :
    listeners (some "80=-3") = Except.ok [ServerStarterListener.Tcp (-3)] := by decide

/-- C3 amended: a segment whose descriptor token does not parse as a
signed 32-bit integer (non-numeric such as `80=a`, empty, or out of the
i32 range) fails with `InvalidServerStarterPortSpec` carrying the segment
text, the same error kind as a malformed segment; a negative token such
as `80=-3` parses and is accepted. -/
theorem claim3_amended (seg left fdTok : String)
    (hsemi : splitStr ';' seg = [seg])
    (hpair : splitStr '=' seg = [left, fdTok])
    (hfd : parseI32 fdTok = none) :
    listeners (some seg) =
      Except.error (ListenerError.InvalidServerStarterPortSpec seg) :=
  listeners_single_err seg _ hsemi
    (processSpec_badfd ServerStarterListener.uds seg left fdTok hpair hfd)

/-- Witness for the amended C3 at the concrete segment `80=a`. -/
theorem claim3_witness :
    listeners (some "80=a") =
      Except.error (ListenerError.InvalidServerStarterPortSpec "80=a") :=
  claim3_amended "80=a" "80" "a" (by decide) (by decide) (by decide)

/-- C4: when every `;`-separated segment of the value processes
successfully to the pointwise-related listener, resolution succeeds with
exactly those listeners, in the same left-to-right order, and the count
equals the number of segments. -/
theorem claim4_order (s : String) (ls : List ServerStarterListener)
    (h : List.Forall₂ (fun seg l => processSpecWith ServerStarterListener.uds seg = Except.ok l)
      (splitStr ';' s) ls) :
    listeners (some s) = Except.ok ls ∧ ls.length = (splitStr ';' s).length := by
  refine ⟨?_, (List.Forall₂.length_eq h).symm⟩
  rw [listeners_some]
  exact resolve_forall2 ServerStarterListener.uds (splitStr ';' s) ls h

/-- Witness for C4 at the concrete three-segment value
`80=2;127.0.0.1:8080=3;/tmp/app.sock=4`. -/
theorem claim4_witness :
    listeners (some "80=2;127.0.0.1:8080=3;/tmp/app.sock=4") =
      Except.ok [ServerStarterListener.Tcp 2, ServerStarterListener.Tcp 3,
        ServerStarterListener.Uds 4] ∧
    ([ServerStarterListener.Tcp 2, ServerStarterListener.Tcp 3,
      ServerStarterListener.Uds 4] : List ServerStarterListener).length =
      (splitStr ';' "80=2;127.0.0.1:8080=3;/tmp/app.sock=4").length :=
  claim4_order "80=2;127.0.0.1:8080=3;/tmp/app.sock=4"
    [ServerStarterListener.Tcp 2, ServerStarterListener.Tcp 3, ServerStarterListener.Uds 4]
    (by
      rw [(by decide : splitStr ';' "80=2;127.0.0.1:8080=3;/tmp/app.sock=4" =
        ["80=2", "127.0.0.1:8080=3", "/tmp/app.sock=4"])]
      exact List.Forall₂.cons (by decide) (List.Forall₂.cons (by decide)
        (List.Forall₂.cons (by decide) List.Forall₂.nil)))

/-- C5: when the environment variable is unset the resolver fails with
`ServerStarterPortEnvNotFound`, deterministically, and does so whatever
the descriptor-adoption function would do — no adoption is involved. -/
theorem claim5_env_not_found :
    listeners none = Except.error ListenerError.ServerStarterPortEnvNotFound ∧
    ∀ udsFn, listenersWith udsFn none =
      Except.error ListenerError.ServerStarterPortEnvNotFound :=
  ⟨rfl, fun _ => rfl⟩

/-- C6: when the segments of the value split as a prefix of well-formed
segments followed by a failing segment, resolution aborts with exactly
that segment's error; the error value is the whole result, so no partial
listener sequence reaches the caller. -/
theorem claim6_first_error (s bad : String) (pre rest : List String) (e : ListenerError)
    (hsplit : splitStr ';' s = pre ++ bad :: rest)
    (hpre : ∀ seg ∈ pre, ∃ l, processSpecWith ServerStarterListener.uds seg = Except.ok l)
    (hbad : processSpecWith ServerStarterListener.uds bad = Except.error e) :
    listeners (some s) = Except.error e := by
  rw [listeners_some, hsplit]
  exact resolve_abort ServerStarterListener.uds pre bad rest e hpre hbad

/-- Witness for C6 at the concrete value `80=2;xx;90=3`: the first
segment is well formed, the second fails, and the resolver returns the
second segment's error. -/
theorem claim6_witness :
    listeners (some "80=2;xx;90=3") =
      Except.error (ListenerError.InvalidServerStarterPortSpec "xx") :=
  claim6_first_error "80=2;xx;90=3" "xx" ["80=2"] ["90=3"]
    (ListenerError.InvalidServerStarterPortSpec "xx") (by decide)
    (fun seg hseg => by
      have hs : seg = "80=2" := List.mem_singleton.mp hseg
      subst hs
      exact ⟨ServerStarterListener.Tcp 2, by decide⟩)
    (by decide)

/-- C7: TCP adoption is infallible (its embedding
`ServerStarterListener.tcp` returns a listener outright, with no error
type, mirroring the non-Result signature in the source); the Unix-domain
adoption step is the only fallible one. Stated over an arbitrary adoption
function `udsFn` plugged into the source's loop: when adoption of a
Unix-classified segment's descriptor reports cause `e`, the resolver
returns `UnixListenerBindError` wrapping exactly `e` (first conjunct),
and whenever the resolver returns `UnixListenerBindError e2`, the
adoption function itself failed with cause `e2` on some descriptor — no
other operation can produce this error (second conjunct). -/
theorem claim7_bind_error_only_uds
    (udsFn udsFn2 : Int → Except OsError ServerStarterListener)
    (e e2 : OsError) (env : Option String) (spec left fdTok : String) (fd : Int)
    (hpair : splitStr '=' spec = [left, fdTok])
    (hfd : parseI32 fdTok = some fd)
    (hhp : hostPortMatch left = false)
    (hpm : portMatch left = false)
    (hud : udsFn fd = Except.error e)
    (henv : listenersWith udsFn2 env = Except.error (ListenerError.UnixListenerBindError e2)) :
    processSpecWith udsFn spec = Except.error (ListenerError.UnixListenerBindError e) ∧
    (∃ fd2, udsFn2 fd2 = Except.error e2) :=
  ⟨processSpec_uds_err udsFn spec left fdTok fd e hpair hfd hhp hpm hud,
    listenersWith_bindError udsFn2 env e2 henv⟩

/-- Witness for C7 with the everywhere-failing adoption function on the
concrete spec `/tmp/app.sock=4`. -/
theorem claim7_witness :
    processSpecWith udsFailing "/tmp/app.sock=4" =
      Except.error (ListenerError.UnixListenerBindError ⟨7⟩) ∧
    (∃ fd2, udsFailing fd2 = Except.error ⟨7⟩) :=
  claim7_bind_error_only_uds udsFailing udsFailing ⟨7⟩ ⟨7⟩
    (some "/tmp/app.sock=4") "/tmp/app.sock=4" "/tmp/app.sock" "4" 4
    (by decide) (by decide) (by decide) (by decide) (by decide) (by decide)

/-- C8: a well-formed segment whose address token matches neither regex —
in particular a token containing a colon that fails the full host:port
pattern, such as `8080:` — falls through to the Unix-domain variant and
is never rejected for its shape. -/
theorem claim8_fallthrough_uds (seg left fdTok : String) (fd : Int)
    (hsemi : splitStr ';' seg = [seg])
    (hpair : splitStr '=' seg = [left, fdTok])
    (hfd : parseI32 fdTok = some fd)
    (hhp : hostPortMatch left = false)
    (hpm : portMatch left = false) :
    listeners (some seg) = Except.ok [ServerStarterListener.Uds fd] :=
  listeners_single_ok seg _ hsemi (processSpec_uds_ok seg left fdTok fd hpair hfd hhp hpm)

/-- Witness for C8 at the concrete spec `8080:=5`, whose address token
`8080:` contains a colon with no digits after it. -/
theorem claim8_witness :
    listeners (some "8080:=5") = Except.ok [ServerStarterListener.Uds 5] :=
  claim8_fallthrough_uds "8080:=5" "8080:" "5" 5
    (by decide) (by decide) (by decide) (by decide) (by decide)

/-- C9: the crate's Unix-domain adoption helper always returns `ok`, so
the `UnixListenerBindError` branch of the resolver is unreachable: for
every input the resolver's result is never that error. -/
theorem claim9_no_bind_error (env : Option String) :
    isUnixBindError (listeners env) = false := by
  cases henv : listeners env with
  | ok ls => simp [isUnixBindError]
  | error e =>
    cases e with
    | ServerStarterPortEnvNotFound => simp [isUnixBindError]
    | InvalidServerStarterPortSpec s => simp [isUnixBindError]
    | UnixListenerBindError e2 =>
      obtain ⟨fd, hfd⟩ := listenersWith_bindError ServerStarterListener.uds env e2 henv
      simp [ServerStarterListener.uds] at hfd

/-- C10: when the environment variable is set to the empty string,
splitting on `;` yields the single empty segment, whose `=`-split has one
part, so the resolver returns `InvalidServerStarterPortSpec` carrying the
empty segment text — in particular neither an empty listener sequence nor
`ServerStarterPortEnvNotFound`. -/
theorem claim10_empty_env :
    listeners (some "") =
      Except.error (ListenerError.InvalidServerStarterPortSpec "") := by decide
